import Mathlib

/-!
Verification of the TradeBot supervisor (src/TradeBot.cpp).

A shallow embedding of the 38-line program.  The external world is an
environment recording the return value of `remove` at startup and the
exit status returned by `system` on each loop iteration.  The program is
embedded as the list of observable events it performs — console lines,
the `remove` call, the `system` calls, and the timed sleeps — indexed by
the number of completed loop iterations.
-/

/-- An observable action of the program. -/
inductive Event where
  /-- a line written to std::cout -/
  | out (s : String)
  /-- a line written to std::cerr -/
  | err (s : String)
  /-- the call remove(path) at src/TradeBot.cpp:12 -/
  | removeFile (path : String)
  /-- the call system(cmd) at src/TradeBot.cpp:25 -/
  | system (cmd : String)
  /-- sleep_for(seconds(n)) at src/TradeBot.cpp:34 -/
  | sleep (secs : Nat)
  deriving DecidableEq

/-- The external world as the program observes it: the value returned by
`remove` on the CSV file at startup, and the exit status returned by
`system` on each loop iteration. -/
structure Env where
  removeResult : Int
  exitStatus : Nat → Int

/-- src/TradeBot.cpp:8 — `std::string ticker = "SPY";` -/
def ticker : String := "SPY"

/-- src/TradeBot.cpp:9 — `csvFilename = ticker + "_stock_data.csv"`, with the
ticker generalised to a parameter. -/
def csvFilename (t : String) : String := t ++ "_stock_data.csv"

/-- The two-valued per-cycle result named by the spec. -/
inductive CycleOutcome where
  | Success
  | Failure
  deriving DecidableEq

/-- The branch condition at src/TradeBot.cpp:25: a `system` return value of 0
selects the success branch, anything else the failure branch. -/
def classify (status : Int) : CycleOutcome :=
  if status = 0 then .Success else .Failure

/-- src/TradeBot.cpp:25-30 — the status line selected by the branch on the
return value of `system`. -/
def outcomeEvents (status : Int) : List Event :=
  match classify status with
  | .Success => [.out "Stock data scraped successfully.\n"]
  | .Failure => [.err "Failed to run the Python script.\n"]

/-- src/TradeBot.cpp:34 — the argument of `sleep_for(std::chrono::seconds(15))`. -/
def pauseSecs : Nat := 15

/-- src/TradeBot.cpp:21-35 — one iteration of the `while (true)` loop, on
iteration `n`. -/
def cycle (env : Env) (t : String) (n : Nat) : List Event :=
  [.out ("Running Python scraper for " ++ t ++ "...\n"),
   .system ("python scraper.py " ++ t)]
  ++ outcomeEvents (env.exitStatus n)
  ++ [.out "Waiting 15 seconds...\n", .sleep pauseSecs]

/-- src/TradeBot.cpp:12-17 — delete the CSV file at the beginning of the run
and report the result. -/
def stateReset (env : Env) (t : String) : List Event :=
  .removeFile (csvFilename t) ::
    if env.removeResult = 0 then
      [.out ("Deleted old CSV file: " ++ csvFilename t ++ "\n")]
    else
      [.out "No CSV file to delete or failed to delete.\n"]

/-- src/TradeBot.cpp:19 — the startup banner. -/
def startLine (t : String) : String :=
  "Starting stock data scraper for " ++ t ++ " every 60 seconds...\n"

/-- The interval the startup banner announces: the `60` printed at
src/TradeBot.cpp:19. -/
def announcedSecs : Nat := 60

/-- The trace of the program after startup and `n` completed loop
iterations. -/
def programTrace (env : Env) (t : String) : Nat → List Event
  | 0 => stateReset env t ++ [.out (startLine t)]
  | n + 1 => programTrace env t n ++ cycle env t n

/-- The whole program (src/TradeBot.cpp `main`): the ticker is the fixed
compiled-in value `"SPY"`. -/
def tradeBotTrace (env : Env) (n : Nat) : List Event :=
  programTrace env ticker n

/-- `true` on lines written to std::cout. -/
def isOut : Event → Bool
  | .out _ => true
  | _ => false

/-- `true` on lines written to std::cerr. -/
def isErr : Event → Bool
  | .err _ => true
  | _ => false

/-- `true` on events that touch the artifact file on disk. -/
def touchesArtifact : Event → Bool
  | .removeFile _ => true
  | _ => false

/-- The duration of a sleep event, if any. -/
def sleepDur : Event → Option Nat
  | .sleep s => some s
  | _ => none

/-- The sequence of sleep durations in a list of events. -/
def sleeps (es : List Event) : List Nat := es.filterMap sleepDur

lemma outcomeEvents_eq (status : Int) :
    outcomeEvents status =
      if status = 0 then [.out "Stock data scraped successfully.\n"]
      else [.err "Failed to run the Python script.\n"] := by
  unfold outcomeEvents classify
  by_cases h : status = 0 <;> simp [h]

lemma sleeps_cycle (env : Env) (t : String) (n : Nat) :
    sleeps (cycle env t n) = [pauseSecs] := by
  unfold cycle sleeps
  rw [outcomeEvents_eq]
  by_cases h : env.exitStatus n = 0 <;> simp [h, sleepDur]

lemma cycle_countP_touches (env : Env) (t : String) (n : Nat) :
    (cycle env t n).countP touchesArtifact = 0 := by
  unfold cycle
  rw [outcomeEvents_eq]
  by_cases h : env.exitStatus n = 0 <;> simp [h, touchesArtifact]

lemma stateReset_countP_touches (env : Env) (t : String) :
    (stateReset env t).countP touchesArtifact = 1 := by
  unfold stateReset
  by_cases h : env.removeResult = 0 <;> simp [h, touchesArtifact]

lemma cycle_length (env : Env) (t : String) (n : Nat) :
    (cycle env t n).length = 5 := by
  unfold cycle
  rw [outcomeEvents_eq]
  by_cases h : env.exitStatus n = 0 <;> simp [h]

lemma deleted_line_ne_no_delete_line (p : String) :
    "Deleted old CSV file: " ++ p ++ "\n" ≠
      "No CSV file to delete or failed to delete.\n" := by
  intro h
  have h2 := congrArg String.data h
  rw [String.data_append, String.data_append] at h2
  have h3 := congrArg List.headI h2
  simp at h3

/-- C1: the Success/Failure classification of a cycle is a pure function of
the subprocess exit status alone — status 0 is Success, any other value is
Failure, and two environments that agree on the exit status of iteration `n`
produce identical traces for that cycle. -/
theorem classify_pure_function_of_exit_status :
    (∀ s : Int, s = 0 → classify s = .Success) ∧
    (∀ s : Int, s ≠ 0 → classify s = .Failure) ∧
    (∀ env env' : Env, ∀ (t : String) (n : Nat),
      env.exitStatus n = env'.exitStatus n → cycle env t n = cycle env' t n) := by
  refine ⟨?_, ?_, ?_⟩
  · intro s h; simp [classify, h]
  · intro s h; simp [classify, h]
  · intro env env' t n h
    unfold cycle
    rw [h]

theorem classify_pure_function_of_exit_status_witness :
    classify 0 = .Success ∧ classify 1 = .Failure ∧
      cycle ⟨0, fun _ => 0⟩ "SPY" 0 = cycle ⟨1, fun _ => 0⟩ "SPY" 0 :=
  ⟨classify_pure_function_of_exit_status.1 0 rfl,
   classify_pure_function_of_exit_status.2.1 1 (by decide),
   classify_pure_function_of_exit_status.2.2 ⟨0, fun _ => 0⟩ ⟨1, fun _ => 0⟩
     "SPY" 0 rfl⟩

/-- C2: for every environment (file deleted, absent, or undeletable) and every
identifier, StateReset writes exactly one informational line, writes nothing
to std::cerr, and control always proceeds into the first loop cycle. -/
theorem stateReset_never_errors (env : Env) (t : String) :
    (stateReset env t).countP isOut = 1 ∧
    (stateReset env t).countP isErr = 0 ∧
    programTrace env t 1 =
      stateReset env t ++ [.out (startLine t)] ++ cycle env t 0 := by
  refine ⟨?_, ?_, ?_⟩
  · unfold stateReset
    by_cases h : env.removeResult = 0 <;> simp [h, isOut]
  · unfold stateReset
    by_cases h : env.removeResult = 0 <;> simp [h, isErr]
  · show programTrace env t 0 ++ cycle env t 0 = _
    unfold programTrace
    simp

/-- C3: StateReset reports a line naming the deleted path exactly when
`remove` succeeds (returns 0), and a distinct fixed line in every other case;
the two lines are never equal. -/
theorem stateReset_message_cases (env : Env) (t : String) :
    (env.removeResult = 0 →
      stateReset env t =
        [.removeFile (csvFilename t),
         .out ("Deleted old CSV file: " ++ csvFilename t ++ "\n")]) ∧
    (env.removeResult ≠ 0 →
      stateReset env t =
        [.removeFile (csvFilename t),
         .out "No CSV file to delete or failed to delete.\n"]) ∧
    "Deleted old CSV file: " ++ csvFilename t ++ "\n" ≠
      "No CSV file to delete or failed to delete.\n" := by
  refine ⟨?_, ?_, deleted_line_ne_no_delete_line (csvFilename t)⟩ <;>
    intro h <;> unfold stateReset <;> simp [h]

theorem stateReset_message_cases_witness :
    stateReset ⟨0, fun _ => 0⟩ "SPY" =
      [.removeFile "SPY_stock_data.csv",
       .out "Deleted old CSV file: SPY_stock_data.csv\n"] := by
  have h := (stateReset_message_cases ⟨0, fun _ => 0⟩ "SPY").1 rfl
  rw [h]
  rfl

/-- C4: the artifact path is the identifier with the fixed suffix
`"_stock_data.csv"` appended; for the compiled-in ticker `"SPY"` it is
`"SPY_stock_data.csv"`. -/
theorem csvFilename_rule :
    csvFilename ticker = "SPY_stock_data.csv" ∧
    ∀ t : String, csvFilename t = t ++ "_stock_data.csv" :=
  ⟨rfl, fun _ => rfl⟩

/-- C5: across the whole trace the artifact file is touched exactly once (the
single `remove` call in StateReset), and no loop cycle ever touches it. -/
theorem artifact_touched_once (env : Env) (t : String) (n : Nat) :
    (programTrace env t n).countP touchesArtifact = 1 ∧
    (cycle env t n).countP touchesArtifact = 0 := by
  refine ⟨?_, cycle_countP_touches env t n⟩
  induction n with
  | zero =>
    unfold programTrace
    rw [List.countP_append, stateReset_countP_touches]
    simp [touchesArtifact]
  | succ k ih =>
    unfold programTrace
    rw [List.countP_append, ih, cycle_countP_touches]

/-- C6: every loop cycle performs, in this exact order: the announcement line,
the synchronous `system` call with the identifier as sole argument, the
success line (exit status 0) or the error line (any other status), the pause
announcement, and the 15-second sleep. -/
theorem cycle_event_order (env : Env) (t : String) (n : Nat) :
    (env.exitStatus n = 0 →
      cycle env t n =
        [.out ("Running Python scraper for " ++ t ++ "...\n"),
         .system ("python scraper.py " ++ t),
         .out "Stock data scraped successfully.\n",
         .out "Waiting 15 seconds...\n",
         .sleep 15]) ∧
    (env.exitStatus n ≠ 0 →
      cycle env t n =
        [.out ("Running Python scraper for " ++ t ++ "...\n"),
         .system ("python scraper.py " ++ t),
         .err "Failed to run the Python script.\n",
         .out "Waiting 15 seconds...\n",
         .sleep 15]) := by
  constructor <;> intro h <;> simp [cycle, outcomeEvents_eq, h, pauseSecs]

theorem cycle_event_order_witness :
    cycle ⟨0, fun _ => 0⟩ "SPY" 0 =
      [.out "Running Python scraper for SPY...\n",
       .system "python scraper.py SPY",
       .out "Stock data scraped successfully.\n",
       .out "Waiting 15 seconds...\n",
       .sleep 15] := by
  have h := (cycle_event_order ⟨0, fun _ => 0⟩ "SPY" 0).1 rfl
  rw [h]
  rfl

/-- C7: the loop never terminates for any sequence of outcomes: after every
iteration the trace extends by that cycle's events, and the trace length is
exactly `3 + 5 * n`, hence strictly increasing without bound. -/
theorem loop_never_terminates (env : Env) (t : String) (n : Nat) :
    programTrace env t (n + 1) = programTrace env t n ++ cycle env t n ∧
    (programTrace env t n).length = 3 + 5 * n := by
  refine ⟨rfl, ?_⟩
  induction n with
  | zero =>
    unfold programTrace stateReset
    by_cases h : env.removeResult = 0 <;> simp [h]
  | succ k ih =>
    unfold programTrace
    rw [List.length_append, ih, cycle_length]
    ring

/-- C8: the inter-cycle pause is the same constant for every cycle of every
run: each cycle sleeps exactly once, for `pauseSecs` (= 15), independently of
the environment, identifier, and iteration. -/
theorem pause_constant_across_outcomes (env env' : Env) (t t' : String)
    (n m : Nat) :
    sleeps (cycle env t n) = [pauseSecs] ∧
    sleeps (cycle env t n) = sleeps (cycle env' t' m) := by
  rw [sleeps_cycle, sleeps_cycle]
  exact ⟨rfl, rfl⟩

/-- C9: the identifier is fixed for the whole run: every `system` invocation
in the trace carries the one command built from `ticker`, and every `remove`
call targets the artifact path derived from the same `ticker`. -/
theorem identifier_immutable (env : Env) (n : Nat) :
    (∀ cmd, Event.system cmd ∈ tradeBotTrace env n →
      cmd = "python scraper.py " ++ ticker) ∧
    (∀ p, Event.removeFile p ∈ tradeBotTrace env n →
      p = csvFilename ticker) := by
  induction n with
  | zero =>
    constructor <;> intro x hx <;>
      unfold tradeBotTrace programTrace stateReset at hx <;>
      by_cases h : env.removeResult = 0 <;>
      simp [h] at hx <;> simp [hx]
  | succ k ih =>
    obtain ⟨ihs, ihr⟩ := ih
    constructor <;> intro x hx <;>
      unfold tradeBotTrace programTrace at hx <;>
      rw [List.mem_append] at hx
    · rcases hx with hx | hx
      · exact ihs x hx
      · unfold cycle at hx
        rw [outcomeEvents_eq] at hx
        by_cases h : env.exitStatus k = 0 <;> simp [h] at hx <;> simp [hx]
    · rcases hx with hx | hx
      · exact ihr x hx
      · unfold cycle at hx
        rw [outcomeEvents_eq] at hx
        by_cases h : env.exitStatus k = 0 <;> simp [h] at hx

theorem identifier_immutable_witness :
    Event.system "python scraper.py SPY" ∈ tradeBotTrace ⟨0, fun _ => 0⟩ 1 ∧
    "python scraper.py SPY" = "python scraper.py " ++ ticker := by
  have hm : Event.system "python scraper.py SPY" ∈
      tradeBotTrace ⟨0, fun _ => 0⟩ 1 := by
    simp [tradeBotTrace, programTrace, stateReset, cycle, outcomeEvents_eq,
      ticker, csvFilename, startLine]
  exact ⟨hm, (identifier_immutable ⟨0, fun _ => 0⟩ 1).1
    "python scraper.py SPY" hm⟩

/-- C10: the startup banner announces an interval of 60 seconds while the
executed pause between cycles is 15 seconds, and the two differ; the banner is
emitted once before the first cycle. -/
theorem announced_interval_differs_from_pause :
    startLine ticker =
      "Starting stock data scraper for SPY every " ++ toString announcedSecs
        ++ " seconds...\n" ∧
    announcedSecs ≠ pauseSecs ∧
    (∀ (env : Env) (t : String) (n : Nat), sleeps (cycle env t n) = [pauseSecs]) ∧
    (∀ (env : Env) (t : String), Event.out (startLine t) ∈ programTrace env t 0) := by
  refine ⟨rfl, by decide, fun env t n => sleeps_cycle env t n, ?_⟩
  intro env t
  unfold programTrace
  simp
